import Mathlib

/-!
Shallow embedding of `src/c++/src/capnp/rpc-twoparty.c++` (`capnp::TwoPartyVatNetwork`).

The network state is modelled as an explicit record; each member function of the C++
class becomes a state-passing Lean function, and asynchronous interleavings become
finite traces of `Op` events folded over a small-step `step` function.  Promises are
modelled by their observable outcome: a value, a pending future identified by the id
of its stored fulfiller, or an `Except` for failure paths.

The kj support library (one-shot `PromiseFulfiller` semantics and the custom
`Disposer`s referenced by the header) belongs to this repository but is not under
`src/`; those parts are modelled from the spec and say so in their doc comments.
-/

namespace RpcTwoParty

/-- The enum `rpc::twoparty::Side` fixed at construction (constructor, line 33). -/
inductive Side
  | server
  | client
deriving DecidableEq, Repr

/-- Abstract protocol message content (one `MallocMessageBuilder` payload). -/
abbrev Msg := Nat

/-- Abstract `kj::Exception` description. -/
abbrev Exn := String

/-- Modelled from the spec: the one-shot signal produced by `kj::newPromiseAndFulfiller`
(the kj library is part of this repository but not under `src/`).  `fulfilled` is the
observable state; `fires` is a ghost counter of effective fulfillment transitions.
Per the spec, fulfilling an already-fulfilled signal is a safe no-op, never a crash. -/
structure OneShot where
  fulfilled : Bool
  fires : Nat
deriving DecidableEq, Repr

/-- A freshly created promise/fulfiller pair: unfulfilled (constructor, lines 36-43). -/
def OneShot.new : OneShot :=
  { fulfilled := false, fires := 0 }

/-- Calling `fulfill()` on the fulfiller: transitions to fulfilled on first use,
subsequent attempts leave the signal unchanged. -/
def OneShot.fulfill (s : OneShot) : OneShot :=
  if s.fulfilled then s else { fulfilled := true, fires := s.fires + 1 }

/-- The state of one `TwoPartyVatNetwork` object.  `previousWrite` is the chain of
queued-but-unwritten messages in queue order (line 34 initialises it to the empty,
already-ready chain); `streamWritten` is the sequence of messages whose bytes have
reached the stream, in write order.  `drainRefcount` and `acceptHandles` count the
outstanding connection handles returned by `connectToRefHost` (disposer
`drainedFulfiller`, line 52) and by the first `acceptConnectionAsRefHost`
(`DestructorOnlyDisposer`, lines 60-61) respectively.  Fulfillers stored in
`acceptFulfiller` (line 65) are identified by ids drawn from `nextFulfillerId`;
`destroyedFulfillers` and `invokedFulfillers` are ghost logs of which stored
fulfillers were destroyed and which were ever invoked. -/
structure VatNetwork where
  side : Side
  disconnectFulfiller : OneShot
  drainedFulfiller : OneShot
  drainRefcount : Nat
  acceptHandles : Nat
  previousWrite : List Msg
  streamWritten : List Msg
  accepted : Bool
  acceptFulfiller : Option Nat
  nextFulfillerId : Nat
  destroyedFulfillers : List Nat
  invokedFulfillers : List Nat
deriving DecidableEq, Repr

/-- The constructor `TwoPartyVatNetwork::TwoPartyVatNetwork` (lines 30-45): both
signals start unfulfilled, the write chain starts ready, nothing accepted yet. -/
def VatNetwork.init (side : Side) : VatNetwork :=
  { side := side
    disconnectFulfiller := OneShot.new
    drainedFulfiller := OneShot.new
    drainRefcount := 0
    acceptHandles := 0
    previousWrite := []
    streamWritten := []
    accepted := false
    acceptFulfiller := none
    nextFulfillerId := 0
    destroyedFulfillers := []
    invokedFulfillers := [] }

/-- A connection handle.  Both `connectToRefHost` and the first accept return
`kj::Own<Connection>(this, ...)` (lines 52 and 60): the handle always refers to the
facade object itself, so the single constructor `toSelf` is the only handle value. -/
inductive ConnHandle
  | toSelf
deriving DecidableEq, Repr

/-- `TwoPartyVatNetwork::connectToRefHost` (lines 47-54): returns `nullptr` when the
peer identity names our own side, otherwise a handle to `this` whose disposer is
`drainedFulfiller`.  Modelled from the spec: the drain disposer tracks a logical
reference count, so acquiring the handle increments it. -/
def connectToRefHost (n : VatNetwork) (refSide : Side) : Option ConnHandle × VatNetwork :=
  if refSide = n.side then
    (none, n)
  else
    (some ConnHandle.toSelf, { n with drainRefcount := n.drainRefcount + 1 })

/-- Outcome of `acceptConnectionAsRefHost`: either an already-resolved future carrying
a handle, or a pending future whose only resolution path is invoking the fulfiller
with the given id. -/
inductive AcceptResult
  | resolved (h : ConnHandle)
  | pending (fulfillerId : Nat)
deriving DecidableEq, Repr

/-- `TwoPartyVatNetwork::acceptConnectionAsRefHost` (lines 56-68): on the server side,
the first call marks `accepted` and returns `this` immediately (with
`DestructorOnlyDisposer`, so the handle is counted in `acceptHandles`, not in the
drain refcount); every other call creates a fresh promise/fulfiller pair, stores the
fulfiller (overwriting - hence destroying - any previously stored one, line 65) and
returns the pending promise. -/
def acceptConnectionAsRefHost (n : VatNetwork) : AcceptResult × VatNetwork :=
  if n.side = Side.server ∧ n.accepted = false then
    (AcceptResult.resolved ConnHandle.toSelf,
      { n with accepted := true, acceptHandles := n.acceptHandles + 1 })
  else
    (AcceptResult.pending n.nextFulfillerId,
      { n with
        acceptFulfiller := some n.nextFulfillerId
        nextFulfillerId := n.nextFulfillerId + 1
        destroyedFulfillers := n.acceptFulfiller.toList ++ n.destroyedFulfillers })

/-- `OutgoingMessageImpl::send` (lines 81-99): under the `previousWrite` exclusive
lock, replace the chain tail by "previous tail, then write this message".  The lock
makes the read-modify-write of the tail atomic, which the small-step model reflects by
making the whole append one step; the message's write runs only after every earlier
queued write. -/
def OutgoingMessageImpl.send (n : VatNetwork) (m : Msg) : VatNetwork :=
  { n with previousWrite := n.previousWrite ++ [m] }

/-- Continuation attached behind `writeMessage` inside `send` (lines 86-97): on
success the continuation only holds the message alive and yields `READY_NOW`; on a
write exception it fulfills `disconnectFulfiller` and likewise yields `READY_NOW`, so
the exception never escapes the chain. -/
def writeCompletion (n : VatNetwork) (res : Except Exn Unit) : Except Exn Unit × VatNetwork :=
  match res with
  | Except.ok _ => (Except.ok (), n)
  | Except.error _ =>
    (Except.ok (), { n with disconnectFulfiller := n.disconnectFulfiller.fulfill })

/-- Completion of the oldest queued write (head of `previousWrite`): `ok = true` means
`writeMessage` succeeded and the bytes reached the stream; `ok = false` means the
write failed, which runs the exception branch of `send` (lines 93-97) via
`writeCompletion`. -/
def writeStep (n : VatNetwork) (ok : Bool) : VatNetwork :=
  match n.previousWrite with
  | [] => n
  | m :: rest =>
    if ok then
      { n with previousWrite := rest, streamWritten := n.streamWritten ++ [m] }
    else
      (writeCompletion { n with previousWrite := rest } (Except.error "write failure")).2

/-- Outcome of one `tryReadMessage` decode attempt (external codec contract). -/
inductive DecodeResult
  | message (m : Msg)
  | endOfStream
  | decodeError (e : Exn)
deriving DecidableEq, Repr

/-- `TwoPartyVatNetwork::receiveIncomingMessage` (lines 123-140), applied to the
decoder's outcome: a message is wrapped and returned; end-of-stream fulfills
`disconnectFulfiller` and returns null; a decode error fulfills `disconnectFulfiller`
and re-raises the error via `kj::throwRecoverableException` (line 136). -/
def receiveIncomingMessage (n : VatNetwork) (r : DecodeResult) :
    Except Exn (Option Msg) × VatNetwork :=
  match r with
  | DecodeResult.message m => (Except.ok (some m), n)
  | DecodeResult.endOfStream =>
    (Except.ok none, { n with disconnectFulfiller := n.disconnectFulfiller.fulfill })
  | DecodeResult.decodeError e =>
    (Except.error e, { n with disconnectFulfiller := n.disconnectFulfiller.fulfill })

/-- Modelled from the spec: release of a handle returned by `connectToRefHost`.  The
drain disposer (declared in the missing header, used at line 52) decrements the
logical reference count and, when it reaches zero, fulfills `drainedFulfiller`; it
never destroys the underlying network object. -/
def releaseConnectHandle (n : VatNetwork) : VatNetwork :=
  if n.drainRefcount = 0 then n
  else if n.drainRefcount = 1 then
    { n with drainRefcount := 0, drainedFulfiller := n.drainedFulfiller.fulfill }
  else { n with drainRefcount := n.drainRefcount - 1 }

/-- Release of the handle returned by the first accept: `DestructorOnlyDisposer`
(lines 60-61) performs no drain bookkeeping at all. -/
def releaseAcceptHandle (n : VatNetwork) : VatNetwork :=
  if n.acceptHandles = 0 then n
  else { n with acceptHandles := n.acceptHandles - 1 }

/-- The message emitted by all three `KJ_FAIL_REQUIRE` stubs (lines 145, 150, 155). -/
def threePartyFailureMessage : String :=
  "Three-party introductions should never occur on two-party network."

/-- `TwoPartyVatNetwork::introduceTo` (lines 142-146): unconditionally fails with a
non-recoverable assertion. -/
def introduceTo (_recipient : ConnHandle) (_sendToRecipient _sendToTarget : Msg) :
    Except String Unit :=
  Except.error threePartyFailureMessage

/-- `TwoPartyVatNetwork::connectToIntroduced` (lines 148-151): unconditionally fails
with a non-recoverable assertion. -/
def connectToIntroduced (_capId : Msg) : Except String ConnHandle :=
  Except.error threePartyFailureMessage

/-- `TwoPartyVatNetwork::acceptIntroducedConnection` (lines 153-156): unconditionally
fails with a non-recoverable assertion. -/
def acceptIntroducedConnection (_recipientId : Msg) : Except String ConnHandle :=
  Except.error threePartyFailureMessage

/-- One observable event on the network: a public call, the completion of the oldest
queued write, or the release of an outstanding handle. -/
inductive Op
  | connect (refSide : Side)
  | accept
  | sendMsg (m : Msg)
  | writeResult (ok : Bool)
  | receive (r : DecodeResult)
  | releaseConnect
  | releaseAccept
deriving DecidableEq, Repr

/-- Small-step semantics: the state change performed by one event. -/
def step (n : VatNetwork) : Op → VatNetwork
  | Op.connect r => (connectToRefHost n r).2
  | Op.accept => (acceptConnectionAsRefHost n).2
  | Op.sendMsg m => OutgoingMessageImpl.send n m
  | Op.writeResult ok => writeStep n ok
  | Op.receive r => (receiveIncomingMessage n r).2
  | Op.releaseConnect => releaseConnectHandle n
  | Op.releaseAccept => releaseAcceptHandle n

/-- Run a trace of events from a state. -/
def run (n : VatNetwork) (ops : List Op) : VatNetwork :=
  ops.foldl step n

/-- The messages passed to `send`, in call order, extracted from a trace. -/
def opsSends (ops : List Op) : List Msg :=
  ops.filterMap fun op =>
    match op with
    | Op.sendMsg m => some m
    | _ => none

/-- Lifecycle events of one `OutgoingMessageImpl` after `send` has been called:
the caller dropping its own `kj::Own` reference, and the completion (successful or
failed) of the chained write, which destroys the continuation holding the
`kj::addRef` reference taken at line 84. -/
inductive MsgEvent
  | callerDrop
  | writeDone
deriving DecidableEq, Repr

/-- Reference count of a fresh `OutgoingMessageImpl`: `kj::refcounted` (line 120)
returns one owning reference to the caller. -/
def refcountAfterNew : Nat := 1

/-- Reference count right after `send`: line 84 takes `kj::addRef(*this)` and moves
it into the write continuation. -/
def refcountAfterSend : Nat := refcountAfterNew + 1

/-- Each lifecycle event releases exactly one reference. -/
def msgRelease (rc : Nat) (_e : MsgEvent) : Nat := rc - 1

/-- Reference count after `send` once the given lifecycle events have happened. -/
def refcountAfter (evs : List MsgEvent) : Nat :=
  evs.foldl msgRelease refcountAfterSend

/-! ### Helper lemmas about the one-shot signals -/

theorem OneShot.fulfilled_fulfill (s : OneShot) : s.fulfill.fulfilled = true := by
  unfold OneShot.fulfill
  by_cases h : s.fulfilled <;> simp [h]

theorem OneShot.fulfill_idem (s : OneShot) : s.fulfill.fulfill = s.fulfill := by
  unfold OneShot.fulfill
  by_cases h : s.fulfilled <;> simp [h]

/-- Invariant tying the ghost fire counter to the observable state: the signal has
fired at most once, and not at all while still unfulfilled. -/
def OneShot.Inv (s : OneShot) : Prop :=
  s.fires ≤ 1 ∧ (s.fulfilled = false → s.fires = 0)

theorem OneShot.inv_new : OneShot.new.Inv := by
  constructor <;> simp [OneShot.new]

theorem OneShot.inv_fulfill {s : OneShot} (h : s.Inv) : s.fulfill.Inv := by
  obtain ⟨h1, h2⟩ := h
  unfold OneShot.fulfill
  by_cases hf : s.fulfilled
  · simpa [hf] using ⟨h1, h2⟩
  · have : s.fires = 0 := h2 (by simpa using hf)
    constructor <;> simp [hf, this]

/-! ### Frame lemmas: how one step touches the signals and the ghost logs -/

theorem step_frame (n : VatNetwork) (op : Op) :
    ((step n op).disconnectFulfiller = n.disconnectFulfiller ∨
      (step n op).disconnectFulfiller = n.disconnectFulfiller.fulfill) ∧
    ((step n op).drainedFulfiller = n.drainedFulfiller ∨
      (step n op).drainedFulfiller = n.drainedFulfiller.fulfill) ∧
    (step n op).invokedFulfillers = n.invokedFulfillers := by
  cases op with
  | connect r =>
    by_cases h : r = n.side <;> simp [step, connectToRefHost, h]
  | accept =>
    by_cases h : n.side = Side.server ∧ n.accepted = false <;>
      simp [step, acceptConnectionAsRefHost, h]
  | sendMsg m => simp [step, OutgoingMessageImpl.send]
  | writeResult ok =>
    cases hc : n.previousWrite with
    | nil => simp [step, writeStep, hc]
    | cons m rest => cases ok <;> simp [step, writeStep, hc, writeCompletion]
  | receive r => cases r <;> simp [step, receiveIncomingMessage]
  | releaseConnect =>
    by_cases h0 : n.drainRefcount = 0
    · simp [step, releaseConnectHandle, h0]
    · by_cases h1 : n.drainRefcount = 1 <;> simp [step, releaseConnectHandle, h0, h1]
  | releaseAccept =>
    by_cases h : n.acceptHandles = 0 <;> simp [step, releaseAcceptHandle, h]

theorem step_disconnect_inv {n : VatNetwork} (op : Op)
    (h : n.disconnectFulfiller.Inv) : (step n op).disconnectFulfiller.Inv := by
  rcases (step_frame n op).1 with he | he <;> rw [he]
  · exact h
  · exact OneShot.inv_fulfill h

theorem step_drained_inv {n : VatNetwork} (op : Op)
    (h : n.drainedFulfiller.Inv) : (step n op).drainedFulfiller.Inv := by
  rcases (step_frame n op).2.1 with he | he <;> rw [he]
  · exact h
  · exact OneShot.inv_fulfill h

theorem run_disconnect_inv (n : VatNetwork) (ops : List Op)
    (h : n.disconnectFulfiller.Inv) : (run n ops).disconnectFulfiller.Inv := by
  induction ops generalizing n with
  | nil => exact h
  | cons op rest ih => exact ih (step n op) (step_disconnect_inv op h)

theorem run_drained_inv (n : VatNetwork) (ops : List Op)
    (h : n.drainedFulfiller.Inv) : (run n ops).drainedFulfiller.Inv := by
  induction ops generalizing n with
  | nil => exact h
  | cons op rest ih => exact ih (step n op) (step_drained_inv op h)

theorem run_invokedFulfillers (n : VatNetwork) (ops : List Op) :
    (run n ops).invokedFulfillers = n.invokedFulfillers := by
  induction ops generalizing n with
  | nil => rfl
  | cons op rest ih => exact ((step_frame n op).2.2) ▸ ih (step n op)

/-! ### Write-ordering lemmas -/

theorem opsSends_cons (op : Op) (rest : List Op) :
    opsSends (op :: rest) = opsSends [op] ++ opsSends rest := by
  cases op <;> simp [opsSends]

theorem step_write_content (n : VatNetwork) (op : Op) (h : op ≠ Op.writeResult false) :
    (step n op).streamWritten ++ (step n op).previousWrite
      = (n.streamWritten ++ n.previousWrite) ++ opsSends [op] := by
  cases op with
  | connect r =>
    by_cases hr : r = n.side <;> simp [step, connectToRefHost, hr, opsSends]
  | accept =>
    by_cases ha : n.side = Side.server ∧ n.accepted = false <;>
      simp [step, acceptConnectionAsRefHost, ha, opsSends]
  | sendMsg m => simp [step, OutgoingMessageImpl.send, opsSends]
  | writeResult ok =>
    cases ok with
    | false => exact absurd rfl h
    | true =>
      cases hc : n.previousWrite with
      | nil => simp [step, writeStep, hc, opsSends]
      | cons m rest => simp [step, writeStep, hc, opsSends]
  | receive r => cases r <;> simp [step, receiveIncomingMessage, opsSends]
  | releaseConnect =>
    by_cases h0 : n.drainRefcount = 0
    · simp [step, releaseConnectHandle, h0, opsSends]
    · by_cases h1 : n.drainRefcount = 1 <;>
        simp [step, releaseConnectHandle, h0, h1, opsSends]
  | releaseAccept =>
    by_cases ha : n.acceptHandles = 0 <;> simp [step, releaseAcceptHandle, ha, opsSends]

theorem run_write_content (n : VatNetwork) (ops : List Op)
    (h : Op.writeResult false ∉ ops) :
    (run n ops).streamWritten ++ (run n ops).previousWrite
      = (n.streamWritten ++ n.previousWrite) ++ opsSends ops := by
  induction ops generalizing n with
  | nil => simp [run, opsSends]
  | cons op rest ih =>
    have h1 : op ≠ Op.writeResult false := fun he => h (he ▸ List.mem_cons_self op rest)
    have h2 : Op.writeResult false ∉ rest := fun hm => h (List.mem_cons_of_mem _ hm)
    have hstep := step_write_content n op h1
    have hrest := ih (step n op) h2
    calc (run n (op :: rest)).streamWritten ++ (run n (op :: rest)).previousWrite
        = (run (step n op) rest).streamWritten ++ (run (step n op) rest).previousWrite := rfl
      _ = ((step n op).streamWritten ++ (step n op).previousWrite) ++ opsSends rest := hrest
      _ = ((n.streamWritten ++ n.previousWrite) ++ opsSends [op]) ++ opsSends rest := by
            rw [hstep]
      _ = (n.streamWritten ++ n.previousWrite) ++ (opsSends [op] ++ opsSends rest) := by
            rw [List.append_assoc]
      _ = (n.streamWritten ++ n.previousWrite) ++ opsSends (op :: rest) := by
            rw [← opsSends_cons]

/-! ### Claim theorems -/

/-- C1: over every trace of operations, the TerminationSignal (`disconnectFulfiller`)
is fulfilled at most once, no matter how many failure paths (a write error in `send`,
a decode error or a clean end-of-stream in `receiveIncomingMessage`) attempt to
fulfill it, in any order and any number of times; a second fulfillment attempt leaves
the signal unchanged - a safe no-op, never a crash. -/
theorem disconnect_fulfilled_at_most_once :
    (∀ (side : Side) (ops : List Op),
      (run (VatNetwork.init side) ops).disconnectFulfiller.fires ≤ 1) ∧
    (∀ s : OneShot, s.fulfill.fulfill = s.fulfill) := by
  constructor
  · intro side ops
    exact (run_disconnect_inv (VatNetwork.init side) ops OneShot.inv_new).1
  · exact OneShot.fulfill_idem

/-- C2: for every trace of interleaved operations in which no write fails, the
messages reaching the stream followed by the still-pending chain are exactly the
`send` calls in call order: writes are neither interleaved nor reordered, because each
`send` atomically (under the `previousWrite` lock) chains its write behind the current
tail, and only the head of the chain is ever being written. -/
theorem send_calls_written_in_call_order (side : Side) (ops : List Op)
    (h : Op.writeResult false ∉ ops) :
    (run (VatNetwork.init side) ops).streamWritten
      ++ (run (VatNetwork.init side) ops).previousWrite = opsSends ops := by
  have hrc := run_write_content (VatNetwork.init side) ops h
  simpa [VatNetwork.init] using hrc

/-- Witness for C2 at a concrete trace of three sends with interleaved completions. -/
theorem send_calls_written_in_call_order_witness :
    Op.writeResult false ∉
        [Op.sendMsg 10, Op.sendMsg 20, Op.writeResult true, Op.sendMsg 30,
          Op.writeResult true] ∧
    (run (VatNetwork.init Side.client)
        [Op.sendMsg 10, Op.sendMsg 20, Op.writeResult true, Op.sendMsg 30,
          Op.writeResult true]).streamWritten
      ++ (run (VatNetwork.init Side.client)
        [Op.sendMsg 10, Op.sendMsg 20, Op.writeResult true, Op.sendMsg 30,
          Op.writeResult true]).previousWrite
      = opsSends
        [Op.sendMsg 10, Op.sendMsg 20, Op.writeResult true, Op.sendMsg 30,
          Op.writeResult true] :=
  ⟨by decide,
    send_calls_written_in_call_order Side.client
      [Op.sendMsg 10, Op.sendMsg 20, Op.writeResult true, Op.sendMsg 30,
        Op.writeResult true] (by decide)⟩

/-- C3: `receiveIncomingMessage` on a decoded message resolves to that message and
leaves the network untouched; on end-of-stream it fulfills the TerminationSignal and
resolves to none; on a decode error it fulfills the TerminationSignal and fails with
the re-raised error - in particular it does not resolve to none. -/
theorem receiveIncomingMessage_outcomes (n : VatNetwork) (m : Msg) (e : Exn) :
    receiveIncomingMessage n (DecodeResult.message m) = (Except.ok (some m), n) ∧
    (receiveIncomingMessage n DecodeResult.endOfStream).1 = Except.ok none ∧
    (receiveIncomingMessage n DecodeResult.endOfStream).2.disconnectFulfiller.fulfilled
      = true ∧
    (receiveIncomingMessage n (DecodeResult.decodeError e)).1 = Except.error e ∧
    (receiveIncomingMessage n (DecodeResult.decodeError e)).2.disconnectFulfiller.fulfilled
      = true ∧
    (receiveIncomingMessage n (DecodeResult.decodeError e)).1 ≠ Except.ok none := by
  refine ⟨rfl, rfl, ?_, rfl, ?_, ?_⟩ <;>
    simp [receiveIncomingMessage, OneShot.fulfilled_fulfill]

/-- C4: when the underlying stream write fails, the exception branch of `send`
consumes the exception: the chained promise resolves successfully (the caller of
`send` sees no error, whatever exception occurred), and the failure is observable only
through the TerminationSignal, which this path fulfills. -/
theorem send_write_failure_swallowed (n : VatNetwork) (e : Exn) :
    (writeCompletion n (Except.error e)).1 = Except.ok () ∧
    (writeCompletion n (Except.error e)).2.disconnectFulfiller.fulfilled = true ∧
    (∀ e2 : Exn, (writeCompletion n (Except.error e)).1 ≠ Except.error e2) ∧
    (writeCompletion n (Except.error e)).1 = (writeCompletion n (Except.ok ())).1 := by
  refine ⟨rfl, ?_, ?_, rfl⟩
  · simp [writeCompletion, OneShot.fulfilled_fulfill]
  · intro e2
    simp [writeCompletion]

/-- C5: `connectToRefHost` returns none exactly when the peer identity's side equals
the network's own side; otherwise it returns a handle to the single underlying
connection - the facade object itself (`toSelf` is the only handle value, so no second
connection is ever allocated). -/
theorem connectToRefHost_none_iff_self (n : VatNetwork) (refSide : Side) :
    ((connectToRefHost n refSide).1 = none ↔ refSide = n.side) ∧
    ((connectToRefHost n refSide).1
      = if refSide = n.side then none else some ConnHandle.toSelf) ∧
    (∀ h : ConnHandle, h = ConnHandle.toSelf) := by
  refine ⟨?_, ?_, fun h => by cases h; rfl⟩ <;>
    by_cases hr : refSide = n.side <;> simp [connectToRefHost, hr]

/-- C6: `acceptConnectionAsRefHost` resolves immediately (with a handle to the
connection) exactly on the first server-side call; every other call - a later call on
the server, or any call on the client - returns a pending future, and since no
operation of the network ever invokes a stored fulfiller (`invokedFulfillers` stays
empty over every trace), such a future never resolves. -/
theorem accept_first_resolves_then_never (n : VatNetwork) (side : Side) (ops : List Op) :
    ((acceptConnectionAsRefHost n).1 =
      if n.side = Side.server ∧ n.accepted = false then
        AcceptResult.resolved ConnHandle.toSelf
      else AcceptResult.pending n.nextFulfillerId) ∧
    ((acceptConnectionAsRefHost
        (acceptConnectionAsRefHost (VatNetwork.init Side.server)).2).1
      = AcceptResult.pending 0) ∧
    ((acceptConnectionAsRefHost (VatNetwork.init Side.client)).1
      = AcceptResult.pending 0) ∧
    (run (VatNetwork.init side) ops).invokedFulfillers = [] := by
  refine ⟨?_, by decide, by decide, run_invokedFulfillers (VatNetwork.init side) ops⟩
  by_cases h : n.side = Side.server ∧ n.accepted = false <;>
    simp [acceptConnectionAsRefHost, h]

/-- C7: `introduceTo`, `connectToIntroduced` and `acceptIntroducedConnection` fail
fatally for all arguments with the non-recoverable assertion naming the
three-party-introduction violation, and never return normally. -/
theorem three_party_ops_always_fatal (recipient : ConnHandle) (a b capId rid : Msg) :
    introduceTo recipient a b = Except.error threePartyFailureMessage ∧
    connectToIntroduced capId = Except.error threePartyFailureMessage ∧
    acceptIntroducedConnection rid = Except.error threePartyFailureMessage ∧
    (∀ u : Unit, introduceTo recipient a b ≠ Except.ok u) ∧
    (∀ h : ConnHandle, connectToIntroduced capId ≠ Except.ok h) ∧
    (∀ h : ConnHandle, acceptIntroducedConnection rid ≠ Except.ok h) := by
  refine ⟨rfl, rfl, rfl, ?_, ?_, ?_⟩ <;> intro x <;>
    simp [introduceTo, connectToIntroduced, acceptIntroducedConnection]

/-- Counterexample to C8 as stated: on a server network, acquire a connect handle and
the (first) accept handle, then release only the connect handle.  The DrainSignal
fires even though the accept handle - an outstanding Connection reference obtained
from the facade - has not been released, because accept handles use
`DestructorOnlyDisposer` (lines 60-61) and are not drain-tracked. -/
theorem drain_fires_despite_outstanding_accept_handle :
    (run (VatNetwork.init Side.server)
      [Op.connect Side.client, Op.accept, Op.releaseConnect]).drainedFulfiller.fulfilled
        = true ∧
    (run (VatNetwork.init Side.server)
      [Op.connect Side.client, Op.accept, Op.releaseConnect]).acceptHandles = 1 := by
  decide

/-- C8 (amended): the DrainSignal fires at most once over every trace, and releasing a
connect handle fires it exactly when that release drops the drain-tracked reference
count (which counts only handles obtained from `connectToRefHost`) to zero; handles
returned by accept are not drain-tracked.  Releasing a handle only does drain
bookkeeping: it never tears down the underlying connection state (pending writes,
stream, TerminationSignal, side, accepted flag are untouched), and acquiring a handle
never fires the signal. -/
theorem drain_signal_tracks_connect_handles (side : Side) (ops : List Op)
    (n : VatNetwork) :
    ((run (VatNetwork.init side) ops).drainedFulfiller.fires ≤ 1) ∧
    ((releaseConnectHandle n).drainedFulfiller.fulfilled = true ↔
      (n.drainRefcount = 1 ∨ n.drainedFulfiller.fulfilled = true)) ∧
    ((releaseConnectHandle n).previousWrite = n.previousWrite) ∧
    ((releaseConnectHandle n).streamWritten = n.streamWritten) ∧
    ((releaseConnectHandle n).disconnectFulfiller = n.disconnectFulfiller) ∧
    ((releaseConnectHandle n).side = n.side) ∧
    ((releaseConnectHandle n).accepted = n.accepted) ∧
    ((connectToRefHost n Side.server).2.drainedFulfiller = n.drainedFulfiller) ∧
    ((connectToRefHost n Side.client).2.drainedFulfiller = n.drainedFulfiller) := by
  have hfires := (run_drained_inv (VatNetwork.init side) ops OneShot.inv_new).1
  have hiff : (releaseConnectHandle n).drainedFulfiller.fulfilled = true ↔
      (n.drainRefcount = 1 ∨ n.drainedFulfiller.fulfilled = true) := by
    by_cases h0 : n.drainRefcount = 0
    · simp [releaseConnectHandle, h0]
    · by_cases h1 : n.drainRefcount = 1
      · simp [releaseConnectHandle, h0, h1, OneShot.fulfilled_fulfill]
      · simp [releaseConnectHandle, h0, h1]
  have hconS : (connectToRefHost n Side.server).2.drainedFulfiller
      = n.drainedFulfiller := by
    by_cases hs : (Side.server : Side) = n.side <;> simp [connectToRefHost, hs]
  have hconC : (connectToRefHost n Side.client).2.drainedFulfiller
      = n.drainedFulfiller := by
    by_cases hs : (Side.client : Side) = n.side <;> simp [connectToRefHost, hs]
  have hframe : (releaseConnectHandle n).previousWrite = n.previousWrite ∧
      (releaseConnectHandle n).streamWritten = n.streamWritten ∧
      (releaseConnectHandle n).disconnectFulfiller = n.disconnectFulfiller ∧
      (releaseConnectHandle n).side = n.side ∧
      (releaseConnectHandle n).accepted = n.accepted := by
    by_cases h0 : n.drainRefcount = 0
    · simp [releaseConnectHandle, h0]
    · by_cases h1 : n.drainRefcount = 1 <;> simp [releaseConnectHandle, h0, h1]
  exact ⟨hfires, hiff, hframe.1, hframe.2.1, hframe.2.2.1, hframe.2.2.2.1,
    hframe.2.2.2.2, hconS, hconC⟩

/-- C9: once `send` has taken its `kj::addRef` reference, the message's reference
count stays positive through any sequence of lifecycle events that does not yet
include the write's completion - in particular even if the caller drops its own
reference immediately after `send`. -/
theorem outgoing_message_alive_until_write_completes (evs : List MsgEvent)
    (hw : MsgEvent.writeDone ∉ evs)
    (hc : evs.count MsgEvent.callerDrop ≤ 1) :
    1 ≤ refcountAfter evs := by
  cases evs with
  | nil => decide
  | cons a t =>
    have ha : a = MsgEvent.callerDrop := by
      cases a with
      | callerDrop => rfl
      | writeDone => exact absurd (List.mem_cons_self _ _) hw
    subst ha
    cases t with
    | nil => decide
    | cons b t2 =>
      have hb : b = MsgEvent.callerDrop := by
        cases b with
        | callerDrop => rfl
        | writeDone =>
          exact absurd (List.mem_cons_of_mem _ (List.mem_cons_self _ _)) hw
      subst hb
      exfalso
      simp [List.count_cons] at hc

/-- Witness for C9: the caller drops its reference right after `send` and the write
has not yet completed; the message is still alive. -/
theorem outgoing_message_alive_witness :
    MsgEvent.writeDone ∉ [MsgEvent.callerDrop] ∧
    ([MsgEvent.callerDrop].count MsgEvent.callerDrop ≤ 1) ∧
    1 ≤ refcountAfter [MsgEvent.callerDrop] :=
  ⟨by decide, by decide,
    outgoing_message_alive_until_write_completes [MsgEvent.callerDrop]
      (by decide) (by decide)⟩

/-- C10: a non-first `acceptConnectionAsRefHost` call overwrites the stored
`acceptFulfiller` with the new call's fulfiller, destroying any previously stored one
(the previous non-first call's still-pending future loses its fulfiller, as the
concrete three-accept trace shows), while the first server-side call leaves the store
untouched; and no operation of the network ever invokes a stored fulfiller. -/
theorem accept_fulfiller_overwritten_never_invoked (n : VatNetwork) (side : Side)
    (ops : List Op) :
    ((acceptConnectionAsRefHost n).2.acceptFulfiller =
      if n.side = Side.server ∧ n.accepted = false then n.acceptFulfiller
      else some n.nextFulfillerId) ∧
    ((acceptConnectionAsRefHost n).2.destroyedFulfillers =
      if n.side = Side.server ∧ n.accepted = false then n.destroyedFulfillers
      else n.acceptFulfiller.toList ++ n.destroyedFulfillers) ∧
    ((run (VatNetwork.init Side.server)
        [Op.accept, Op.accept, Op.accept]).destroyedFulfillers = [0]) ∧
    (run (VatNetwork.init side) ops).invokedFulfillers = [] := by
  refine ⟨?_, ?_, by decide, run_invokedFulfillers (VatNetwork.init side) ops⟩ <;>
    by_cases h : n.side = Side.server ∧ n.accepted = false <;>
      simp [acceptConnectionAsRefHost, h]

end RpcTwoParty
